import Mathlib

/-!
Shallow embedding of the specs-nexus backend route handlers and a
verification of the clearance state machine, the bulk requirement
creation, the event join and leave operations, and the two analytics
dashboard implementations found in the source tree.

Conventions of the embedding: timestamps are abstract integers (the
wall clock is passed to each operation as an explicit now argument),
machine floats that only carry money amounts or percentage rates are
modelled as rationals, SQL NULL columns are Option values with the SQL
three-valued comparison semantics (a comparison against NULL is false),
and every HTTP exception becomes an error value carrying the status
code and the detail string.
-/

/-- Modelled from the spec: the User entity of section 3 (the ORM models
module is not part of the provided sources). Only the fields the verified
route handlers read are embedded: the numeric id and the optional last
activity timestamp. -/
structure User where
  id : Nat
  last_active : Option Int := none
deriving DecidableEq, Repr

/-- Modelled from the spec: the Clearance entity of section 3, the
membership payment record. Field names follow the source columns. -/
structure Clearance where
  id : Nat
  user_id : Nat
  requirement : String
  amount : Rat
  payment_status : String
  status : String
  payment_method : Option String := none
  receipt_path : Option String := none
  payment_date : Option Int := none
  approval_date : Option Int := none
  denial_reason : Option String := none
  archived : Bool := false
  last_updated : Int := 0
deriving DecidableEq, Repr

/-- Modelled from the spec: the Event entity of section 3. Participation
is the many-to-many relation to User, embedded as the list of user ids in
insertion order; the derived participant count is its length. -/
structure Event where
  id : Nat
  title : String := ""
  date : Option Int := none
  registration_start : Option Int := none
  registration_end : Option Int := none
  archived : Bool := false
  participants : List Nat := []
deriving DecidableEq, Repr

/-- The database state seen by the route handlers: the three tables the
verified handlers touch plus a fresh primary key counter. -/
structure DB where
  users : List User := []
  clearances : List Clearance := []
  events : List Event := []
  next_id : Nat := 0
deriving DecidableEq, Repr

/-- An HTTPException raised by a handler: status code plus detail text. -/
structure HttpError where
  status_code : Nat
  detail : String
deriving DecidableEq, Repr

/-- Commit of an ORM mutation of one fetched Clearance row: the row with
the same primary key is replaced in the table. -/
def replaceClearance (db : DB) (m : Clearance) : DB :=
  { db with clearances := db.clearances.map (fun c => if c.id == m.id then m else c) }

/-- Commit of an ORM mutation of one fetched Event row. -/
def replaceEvent (db : DB) (e : Event) : DB :=
  { db with events := db.events.map (fun x => if x.id == e.id then e else x) }

/-- Request body of the update receipt endpoint
(src/specs_nexus_backend/app/routes/membership.py, class UpdateReceiptPayload). -/
structure UpdateReceiptPayload where
  membership_id : Nat
  payment_type : String
  receipt_path : String
deriving DecidableEq, Repr

/-- Model of the Python str lower method over the character list. -/
def pyLower (s : String) : String := ⟨s.data.map Char.toLower⟩

/-- Model of the Python str strip method: whitespace removed from both
ends of the character list. -/
def pyStrip (s : String) : String :=
  ⟨((s.data.dropWhile Char.isWhitespace).reverse.dropWhile Char.isWhitespace).reverse⟩

/-- Embedding of update_receipt
(src/specs_nexus_backend/app/routes/membership.py, lines 210 to 239).
The authenticated caller id is passed exactly as the handler receives the
current user dependency; the source body uses it only in log lines. The
now argument is the Manila local timestamp the handler computes. -/
def update_receipt (db : DB) (payload : UpdateReceiptPayload) (callerId : Nat)
    (now : Int) : Except HttpError Clearance × DB :=
  let payment_type := pyStrip (pyLower payload.payment_type)
  if !(payment_type == "gcash" || payment_type == "paymaya") then
    (.error ⟨400, "Invalid payment_type"⟩, db)
  else
    match db.clearances.find? (fun c => c.id == payload.membership_id && !c.archived) with
    | none => (.error ⟨404, "Membership not found"⟩, db)
    | some membership =>
      let m := { membership with
        receipt_path := some payload.receipt_path,
        payment_status := "Verifying",
        status := "Processing",
        payment_method := some payment_type,
        payment_date := some now }
      (.ok m, replaceClearance db m)

/-- Embedding of officer_create_membership
(src/specs_nexus_backend/app/routes/membership.py, lines 256 to 279).
The payment status is caller supplied while the status column is always
initialized to Not Yet Cleared, exactly as in the source. -/
def officer_create_membership (db : DB) (user_id : Nat) (amount : Rat)
    (payment_status : String) (requirement : String) (now : Int) : Clearance × DB :=
  let new_record : Clearance :=
    { id := db.next_id, user_id := user_id, amount := amount,
      payment_status := payment_status, requirement := requirement,
      status := "Not Yet Cleared", receipt_path := some "", archived := false,
      last_updated := now }
  (new_record, { db with clearances := db.clearances ++ [new_record], next_id := db.next_id + 1 })

/-- Embedding of officer_verify_membership
(src/specs_nexus_backend/app/routes/membership.py, lines 285 to 321).
The source detail string for a bad action contains quote characters and is
abbreviated here; the status code is kept exact. -/
def officer_verify_membership (db : DB) (membership_id : Nat) (action : String)
    (denial_reason : Option String) (now : Int) : Except HttpError Clearance × DB :=
  if action != "approve" && action != "deny" then
    (.error ⟨400, "Invalid action"⟩, db)
  else
    match db.clearances.find? (fun c => c.id == membership_id && !c.archived) with
    | none => (.error ⟨404, "Membership record not found"⟩, db)
    | some membership =>
      if action == "approve" then
        let m := { membership with
          payment_status := "Paid", status := "Clear",
          approval_date := some now, denial_reason := none }
        (.ok m, replaceClearance db m)
      else
        let m := { membership with
          payment_status := "Not Paid", status := "Not Yet Cleared",
          receipt_path := none, payment_method := none,
          denial_reason := denial_reason, payment_date := none }
        (.ok m, replaceClearance db m)

/-- The existence check of the bulk creation loop: true when the user has
no non archived clearance for the requirement
(src/specs_nexus_backend/app/routes/membership.py, lines 385 to 389). -/
def lacksRequirement (clearances : List Clearance) (req : String) (uid : Nat) : Bool :=
  (clearances.find? (fun c => c.user_id == uid && c.requirement == req && !c.archived)).isNone

/-- The clearance row added by the bulk creation loop
(src/specs_nexus_backend/app/routes/membership.py, lines 391 to 399). -/
def newRequirementClearance (nid uid : Nat) (req : String) (amt : Rat) (now : Int) : Clearance :=
  { id := nid, user_id := uid, requirement := req, amount := amt,
    payment_status := "Not Paid", status := "Not Yet Cleared",
    receipt_path := some "", archived := false, last_updated := now }

/-- The per user loop of create_officer_requirement. Each query inside the
loop sees the rows added for the users already processed, matching the
autoflush behavior of the ORM session. -/
def create_officer_requirement_loop (req : String) (amt : Rat) (now : Int) :
    List User → DB → List Clearance → DB × List Clearance
  | [], db, created => (db, created)
  | u :: rest, db, created =>
    if lacksRequirement db.clearances req u.id then
      let nc := newRequirementClearance db.next_id u.id req amt now
      create_officer_requirement_loop req amt now rest
        { db with clearances := db.clearances ++ [nc], next_id := db.next_id + 1 }
        (created ++ [nc])
    else
      create_officer_requirement_loop req amt now rest db created

/-- Embedding of create_officer_requirement
(src/specs_nexus_backend/app/routes/membership.py, lines 374 to 409):
iterate over every user, create a row for each user lacking a non archived
clearance for the requirement, return the first created row, and fail with
a 400 when no row was created. -/
def create_officer_requirement (db : DB) (req : String) (amt : Rat) (now : Int) :
    Except HttpError Clearance × DB :=
  let r := create_officer_requirement_loop req amt now db.users db []
  match r.2 with
  | [] => (.error ⟨400, "Requirement already exists for all users"⟩, r.1)
  | c :: _ => (.ok c, r.1)

/-- The first guard of join_event: a registration start is set and lies in
the future. A missing bound is falsy in the source conditional. -/
def registrationNotStarted (e : Event) (now : Int) : Bool :=
  match e.registration_start with
  | some s => decide (now < s)
  | none => false

/-- The second guard of join_event and the guard of leave_event: a
registration end is set and lies in the past. -/
def registrationEnded (e : Event) (now : Int) : Bool :=
  match e.registration_end with
  | some t => decide (t < now)
  | none => false

/-- Embedding of join_event (src/app/routes/events.py, lines 114 to 143).
The event lookup is by id only, with no archived filter, as in the source. -/
def join_event (db : DB) (event_id : Nat) (callerId : Nat) (now : Int) :
    Except HttpError String × DB :=
  match db.events.find? (fun e => e.id == event_id) with
  | none => (.error ⟨404, "Event not found"⟩, db)
  | some event =>
    if registrationNotStarted event now then
      (.error ⟨403, "Registration for this event has not started yet"⟩, db)
    else if registrationEnded event now then
      (.error ⟨403, "Registration for this event has ended"⟩, db)
    else if event.participants.contains callerId then
      (.ok "Already participating in this event", db)
    else
      (.ok "Successfully joined the event",
       replaceEvent db { event with participants := event.participants ++ [callerId] })

/-- Embedding of leave_event (src/app/routes/events.py, lines 147 to 172).
Only the registration end bound is checked; removal takes out the first
occurrence of the caller in the participant list, as list remove does. -/
def leave_event (db : DB) (event_id : Nat) (callerId : Nat) (now : Int) :
    Except HttpError String × DB :=
  match db.events.find? (fun e => e.id == event_id) with
  | none => (.error ⟨404, "Event not found"⟩, db)
  | some event =>
    if registrationEnded event now then
      (.error ⟨403, "Registration for this event has ended, cannot leave now"⟩, db)
    else if !(event.participants.contains callerId) then
      (.ok "You are not participating in this event", db)
    else
      (.ok "Successfully left the event",
       replaceEvent db { event with participants := event.participants.erase callerId })

/-- One day of the abstract clock, in seconds. -/
def day : Int := 86400

/-- SQL comparison of the nullable payment date column against the
inclusive date range: false when the column is NULL. -/
def paymentDateInRange (c : Clearance) (s e : Int) : Bool :=
  match c.payment_date with
  | some d => decide (s ≤ d) && decide (d ≤ e)
  | none => false

/-- A user whose last activity timestamp is at or after the cutoff; a NULL
timestamp never satisfies the comparison. -/
def activeSince (u : User) (cutoff : Int) : Bool :=
  match u.last_active with
  | some t => decide (cutoff ≤ t)
  | none => false

/-- Count of users whose activity timestamp is within the last thirty days
(src/app/routes/analytics.py, lines 145 to 149). -/
def activeUserCount (db : DB) (now : Int) : Nat :=
  (db.users.filter (fun u => activeSince u (now - 30 * day))).length

/-- Distinct ids of users holding a paid non archived clearance whose
payment date lies in the range, shared by both dashboard variants. -/
def paidMemberIds (db : DB) (s e : Int) : List Nat :=
  ((db.clearances.filter (fun c =>
    !c.archived && c.payment_status == "Paid" && paymentDateInRange c s e)).map
      (fun c => c.user_id)).dedup

/-- One entry of the events engagement list of the dashboard report. -/
structure Engagement where
  title : String
  participant_count : Nat
  participation_rate : Rat
deriving DecidableEq, Repr

/-- The dashboard report, restricted to the fields the verified claims
concern: the user total, the distinct paid member total, the thirty day
activity split, and the per event engagement list. -/
structure Dashboard where
  totalStudents : Nat
  totalSpecsMembers : Nat
  activeMembers : Nat
  inactiveMembers : Int
  events : List Engagement
deriving DecidableEq, Repr

/-- Two decimal rounding, the rational model of the float round with two
digits shared by the embedded code and the specification formula. -/
def round2 (q : Rat) : Rat := (round (q * 100) : Rat) / 100

namespace AppAnalytics

/-- Event filter of the first dashboard (src/app/routes/analytics.py, lines
320 to 327): the archived flag must equal the include archived parameter,
and the date disjunction is satisfied by any NULL date. -/
def eventSelected (e : Event) (ia : Bool) (s t : Int) : Bool :=
  e.archived == ia &&
    (match e.date with
     | some d => decide (s ≤ d) || decide (d ≤ t)
     | none => true)

/-- Embedding of get_dashboard_data (src/app/routes/analytics.py, lines 50
to 428), restricted to the claim relevant report fields. A raised
HTTPException passes through unchanged because this variant re raises
HTTPException before its generic except clause. -/
def get_dashboard_data (db : DB) (start_dateQ end_dateQ : Option Int)
    (include_archivedQ : Option Bool) (now : Int) : Except HttpError Dashboard :=
  let start_date := start_dateQ.getD (now - 730 * day)
  let end_date := end_dateQ.getD now
  let include_archived := include_archivedQ.getD false
  if start_date > end_date then .error ⟨400, "Start date must be before end date"⟩
  else
    let total_cs_students := db.users.length
    let total_specs_members := (paidMemberIds db start_date end_date).length
    let active_members := activeUserCount db now
    let inactive_members : Int := (total_cs_students : Int) - (active_members : Int)
    let events := db.events.filter (fun e => eventSelected e include_archived start_date end_date)
    let events_engagement := events.map (fun e =>
      { title := e.title,
        participant_count := e.participants.length,
        participation_rate :=
          if decide (0 < total_specs_members) && e.participants.length != 0 then
            round2 ((e.participants.length : Rat) / (total_specs_members : Rat) * 100)
          else 0 })
    .ok { totalStudents := total_cs_students, totalSpecsMembers := total_specs_members,
          activeMembers := active_members, inactiveMembers := inactive_members,
          events := events_engagement }

end AppAnalytics

namespace RoutesAnalytics

/-- Active member count of the second dashboard (src/routes/analytics.py,
lines 112 to 121): distinct users joined with a paid non archived clearance
in range whose last activity is within thirty days. -/
def activePaidMemberCount (db : DB) (s e now : Int) : Nat :=
  ((db.users.filter (fun u => activeSince u (now - 30 * day) &&
      db.clearances.any (fun c => c.user_id == u.id && !c.archived &&
        c.payment_status == "Paid" && paymentDateInRange c s e))).map
          (fun u => u.id)).dedup.length

/-- Body of the second dashboard (src/routes/analytics.py, lines 31 to
373) before exception handling, restricted to the claim relevant fields.
Events require a non NULL date inside the range here, and the inactive
count subtracts the active paid members from the paid member total. -/
def dashboard_body (db : DB) (start_dateQ end_dateQ : Option Int) (now : Int) :
    Except HttpError Dashboard :=
  let start_date := start_dateQ.getD (now - 365 * day)
  let end_date := end_dateQ.getD now
  if start_date > end_date then .error ⟨400, "Start date must be before end date"⟩
  else
    let total_cs_students := db.users.length
    let total_specs_members := (paidMemberIds db start_date end_date).length
    let active_members := activePaidMemberCount db start_date end_date now
    let inactive_members : Int := (total_specs_members : Int) - (active_members : Int)
    let events := db.events.filter (fun e => !e.archived &&
      (match e.date with
       | some d => decide (start_date ≤ d) && decide (d ≤ end_date)
       | none => false))
    let events_engagement := events.map (fun e =>
      { title := e.title,
        participant_count := e.participants.length,
        participation_rate :=
          if decide (0 < total_specs_members) then
            round2 ((e.participants.length : Rat) / (total_specs_members : Rat) * 100)
          else 0 })
    .ok { totalStudents := total_cs_students, totalSpecsMembers := total_specs_members,
          activeMembers := active_members, inactiveMembers := inactive_members,
          events := events_engagement }

/-- Embedding of get_dashboard_data (src/routes/analytics.py, lines 27 to
377). The whole body sits in a try block whose only handler catches every
Exception and raises a generic 500 error; HTTPException is a subclass of
Exception in Python, so the 400 raised by the date validation is also
converted into the generic 500 here, exactly as in the source. -/
def get_dashboard_data (db : DB) (start_dateQ end_dateQ : Option Int) (now : Int) :
    Except HttpError Dashboard :=
  match dashboard_body db start_dateQ end_dateQ now with
  | .error _ => .error ⟨500, "Internal server error while aggregating dashboard data"⟩
  | .ok d => .ok d

end RoutesAnalytics

/-- The row produced by a successful receipt submission: the five columns
update_receipt writes, with every other column, the denial reason
included, left unchanged. -/
def receiptUpdatedRow (m : Clearance) (p : UpdateReceiptPayload) (now : Int) : Clearance :=
  { m with receipt_path := some p.receipt_path, payment_status := "Verifying",
           status := "Processing", payment_method := some (pyStrip (pyLower p.payment_type)),
           payment_date := some now }

/-- The row produced by an officer approval. -/
def approvedRow (m : Clearance) (now : Int) : Clearance :=
  { m with payment_status := "Paid", status := "Clear",
           approval_date := some now, denial_reason := none }

/-- The row produced by an officer denial. -/
def deniedRow (m : Clearance) (dr : Option String) : Clearance :=
  { m with payment_status := "Not Paid", status := "Not Yet Cleared",
           receipt_path := none, payment_method := none,
           denial_reason := dr, payment_date := none }

/-- A sample clearance carrying a prior denial reason, for the concrete
instances below. -/
def sampleDenied : Clearance :=
  { id := 1, user_id := 7, requirement := "1st Semester Membership", amount := 500,
    payment_status := "Not Paid", status := "Not Yet Cleared",
    denial_reason := some "Blurry receipt image" }

/-- A sample database holding the denied clearance of user 7. -/
def sampleDB : DB :=
  { users := [{ id := 7 }], clearances := [sampleDenied], events := [], next_id := 2 }

/-- A sample event with an open registration window and two participants. -/
def sampleEvent : Event :=
  { id := 3, title := "General Assembly", date := some 5000,
    registration_start := some 100, registration_end := some 9000,
    participants := [7, 8] }

/-- A sample event whose registration window already closed. -/
def closedEvent : Event :=
  { id := 4, title := "Old Orientation", registration_end := some 10,
    participants := [7] }

/-- A sample database holding both events. -/
def sampleEventDB : DB :=
  { users := [{ id := 7 }, { id := 8 }], events := [sampleEvent, closedEvent], next_id := 5 }

/-- A sample database with one paid member and one attended event. -/
def engagementSampleDB : DB :=
  { users := [{ id := 1 }],
    clearances := [{ id := 1, user_id := 1, requirement := "1st Semester Membership",
                     amount := 500, payment_status := "Paid", status := "Clear",
                     payment_date := some 5 }],
    events := [{ id := 1, title := "Sports Fest", date := some 6, participants := [1] }],
    next_id := 2 }

/-- The dashboard the first implementation reports for the sample data. -/
def engagementDashboard : Dashboard :=
  ((AppAnalytics.get_dashboard_data engagementSampleDB (some 0) (some 10) none 7).toOption).getD
    ⟨0, 0, 0, 0, []⟩

/-- A sample database with two registered users, one of them recently
active, and no clearance rows at all. -/
def inactiveSampleDB : DB :=
  { users := [{ id := 1, last_active := some 95 }, { id := 2 }] }

/-- The rows the bulk creation adds, computed directly from the starting
table: one fresh initialized row per user lacking a non archived clearance
for the requirement, with primary keys counting up. -/
def freshClearances (base : List Clearance) (req : String) (amt : Rat) (now : Int) :
    List User → Nat → List Clearance
  | [], _ => []
  | u :: rest, nid =>
    if lacksRequirement base req u.id then
      newRequirementClearance nid u.id req amt now ::
        freshClearances base req amt now rest (nid + 1)
    else freshClearances base req amt now rest nid

/-- The rows the bulk creation adds to a given database state. -/
def bulkFresh (db : DB) (req : String) (amt : Rat) (now : Int) : List Clearance :=
  freshClearances db.clearances req amt now db.users db.next_id

/-- A Lab Fee clearance row for the given user, non archived. -/
def labFeeClearance (uid : Nat) : Clearance :=
  { id := uid, user_id := uid, requirement := "Lab Fee", amount := 500,
    payment_status := "Not Paid", status := "Not Yet Cleared" }

/-- Ten registered users of whom the first three already hold a non
archived Lab Fee clearance. -/
def labFeeDB : DB :=
  { users := [{ id := 1 }, { id := 2 }, { id := 3 }, { id := 4 }, { id := 5 },
              { id := 6 }, { id := 7 }, { id := 8 }, { id := 9 }, { id := 10 }],
    clearances := [labFeeClearance 1, labFeeClearance 2, labFeeClearance 3],
    next_id := 11 }

/-- Three registered users, each already holding a non archived Lab Fee
clearance. -/
def labFeeFullDB : DB :=
  { users := [{ id := 1 }, { id := 2 }, { id := 3 }],
    clearances := [labFeeClearance 1, labFeeClearance 2, labFeeClearance 3],
    next_id := 4 }

/-- The three legal pairs of the clearance state machine as a boolean
check over one row. -/
def goodPairB (c : Clearance) : Bool :=
  (c.status == "Not Yet Cleared" && c.payment_status == "Not Paid") ||
  (c.status == "Processing" && c.payment_status == "Verifying") ||
  (c.status == "Clear" && c.payment_status == "Paid")

/-- Database states reachable from a clearance free state through the five
public clearance operations, with the payment status of the single row
creation left caller chosen exactly as the endpoint accepts it. -/
inductive Reachable : DB → Prop where
  | init (users : List User) (events : List Event) (nid : Nat) :
      Reachable ⟨users, [], events, nid⟩
  | create (db : DB) (uid : Nat) (amt : Rat) (ps req : String) (now : Int) :
      Reachable db → Reachable (officer_create_membership db uid amt ps req now).2
  | bulk (db : DB) (req : String) (amt : Rat) (now : Int) :
      Reachable db → Reachable (create_officer_requirement db req amt now).2
  | receipt (db : DB) (p : UpdateReceiptPayload) (caller : Nat) (now : Int) :
      Reachable db → Reachable (update_receipt db p caller now).2
  | verify (db : DB) (mid : Nat) (action : String) (dr : Option String) (now : Int) :
      Reachable db → Reachable (officer_verify_membership db mid action dr now).2

/-- Database states reachable through the same operations when the single
row creation is always invoked with payment status Not Paid. -/
inductive ReachableGood : DB → Prop where
  | init (users : List User) (events : List Event) (nid : Nat) :
      ReachableGood ⟨users, [], events, nid⟩
  | create (db : DB) (uid : Nat) (amt : Rat) (req : String) (now : Int) :
      ReachableGood db → ReachableGood (officer_create_membership db uid amt "Not Paid" req now).2
  | bulk (db : DB) (req : String) (amt : Rat) (now : Int) :
      ReachableGood db → ReachableGood (create_officer_requirement db req amt now).2
  | receipt (db : DB) (p : UpdateReceiptPayload) (caller : Nat) (now : Int) :
      ReachableGood db → ReachableGood (update_receipt db p caller now).2
  | verify (db : DB) (mid : Nat) (action : String) (dr : Option String) (now : Int) :
      ReachableGood db → ReachableGood (officer_verify_membership db mid action dr now).2

/-- The state produced by creating a single clearance with caller supplied
payment status Paid: its pair is Not Yet Cleared and Paid. -/
def badStateDB : DB :=
  (officer_create_membership ⟨[], [], [], 0⟩ 7 500 "Paid" "1st Semester Membership" 0).2

/-- A reachable state built by a create with payment status Not Paid
followed by a receipt submission on the created row. -/
def goodTraceDB : DB :=
  (update_receipt
    (officer_create_membership ⟨[{ id := 7 }], [], [], 1⟩ 7 500 "Not Paid"
      "1st Semester Membership" 0).2
    ⟨1, "gcash", "receipts/w.png"⟩ 7 10).2

/-- C2: the claim states that a receipt submission clears any prior denial
reason, leaving it null afterward. At this concrete input the prior denial
reason survives the submission unchanged, so the claim as stated is false:
the resulting denial reason is still the stored text, not null. -/
theorem update_receipt_denial_counterexample :
    ((update_receipt sampleDB ⟨1, "gcash", "receipts/r1.png"⟩ 7 1000).1.toOption.map
      Clearance.denial_reason) = some (some "Blurry receipt image") ∧
    some "Blurry receipt image" ≠ (none : Option String) :=
  ⟨rfl, by decide⟩

/-- C2 (amended): for every existing non archived clearance and valid
payment type, update_receipt sets status Processing and payment status
Verifying, records the method, the receipt path and the payment date, and
leaves the denial reason unchanged rather than clearing it. -/
theorem update_receipt_spec (db : DB) (p : UpdateReceiptPayload) (caller : Nat)
    (now : Int) (m : Clearance)
    (hty : pyStrip (pyLower p.payment_type) = "gcash" ∨
           pyStrip (pyLower p.payment_type) = "paymaya")
    (hfind : db.clearances.find? (fun c => c.id == p.membership_id && !c.archived) = some m) :
    update_receipt db p caller now =
      (.ok (receiptUpdatedRow m p now), replaceClearance db (receiptUpdatedRow m p now)) ∧
    (receiptUpdatedRow m p now).status = "Processing" ∧
    (receiptUpdatedRow m p now).payment_status = "Verifying" ∧
    (receiptUpdatedRow m p now).payment_method = some (pyStrip (pyLower p.payment_type)) ∧
    (receiptUpdatedRow m p now).receipt_path = some p.receipt_path ∧
    (receiptUpdatedRow m p now).payment_date = some now ∧
    (receiptUpdatedRow m p now).denial_reason = m.denial_reason := by
  refine ⟨?_, rfl, rfl, rfl, rfl, rfl, rfl⟩
  have hc : (pyStrip (pyLower p.payment_type) == "gcash" ||
             pyStrip (pyLower p.payment_type) == "paymaya") = true := by
    rcases hty with h | h <;> simp [h]
  simp [update_receipt, hc, hfind, receiptUpdatedRow]

/-- Witness for C2 at a concrete database: a gcash submission on the
denied clearance of user 7. -/
theorem update_receipt_spec_witness :
    update_receipt sampleDB ⟨1, "gcash", "receipts/r1.png"⟩ 9 1000 =
      (.ok (receiptUpdatedRow sampleDenied ⟨1, "gcash", "receipts/r1.png"⟩ 1000),
       replaceClearance sampleDB (receiptUpdatedRow sampleDenied ⟨1, "gcash", "receipts/r1.png"⟩ 1000)) ∧
    (receiptUpdatedRow sampleDenied ⟨1, "gcash", "receipts/r1.png"⟩ 1000).status = "Processing" ∧
    (receiptUpdatedRow sampleDenied ⟨1, "gcash", "receipts/r1.png"⟩ 1000).payment_status = "Verifying" ∧
    (receiptUpdatedRow sampleDenied ⟨1, "gcash", "receipts/r1.png"⟩ 1000).payment_method =
      some (pyStrip (pyLower "gcash")) ∧
    (receiptUpdatedRow sampleDenied ⟨1, "gcash", "receipts/r1.png"⟩ 1000).receipt_path =
      some "receipts/r1.png" ∧
    (receiptUpdatedRow sampleDenied ⟨1, "gcash", "receipts/r1.png"⟩ 1000).payment_date = some 1000 ∧
    (receiptUpdatedRow sampleDenied ⟨1, "gcash", "receipts/r1.png"⟩ 1000).denial_reason =
      sampleDenied.denial_reason :=
  update_receipt_spec sampleDB ⟨1, "gcash", "receipts/r1.png"⟩ 9 1000 sampleDenied
    (Or.inl rfl) rfl

/-- C3: for every existing non archived clearance, an officer approval
yields the pair Clear and Paid with the approval date recorded and the
denial reason set to null, and an officer denial yields the pair Not Yet
Cleared and Not Paid with receipt path, payment method and payment date
nulled and the supplied denial reason recorded. -/
theorem officer_verify_membership_spec (db : DB) (mid : Nat) (dr : Option String)
    (now : Int) (m : Clearance)
    (hfind : db.clearances.find? (fun c => c.id == mid && !c.archived) = some m) :
    officer_verify_membership db mid "approve" dr now =
      (.ok (approvedRow m now), replaceClearance db (approvedRow m now)) ∧
    officer_verify_membership db mid "deny" dr now =
      (.ok (deniedRow m dr), replaceClearance db (deniedRow m dr)) ∧
    (approvedRow m now).status = "Clear" ∧ (approvedRow m now).payment_status = "Paid" ∧
    (approvedRow m now).approval_date = some now ∧ (approvedRow m now).denial_reason = none ∧
    (deniedRow m dr).status = "Not Yet Cleared" ∧ (deniedRow m dr).payment_status = "Not Paid" ∧
    (deniedRow m dr).receipt_path = none ∧ (deniedRow m dr).payment_method = none ∧
    (deniedRow m dr).payment_date = none ∧ (deniedRow m dr).denial_reason = dr := by
  refine ⟨?_, ?_, rfl, rfl, rfl, rfl, rfl, rfl, rfl, rfl, rfl, rfl⟩ <;>
    simp [officer_verify_membership, hfind, approvedRow, deniedRow]

/-- Witness for C3 at the concrete sample database. -/
theorem officer_verify_membership_spec_witness :
    officer_verify_membership sampleDB 1 "approve" (some "late") 2000 =
      (.ok (approvedRow sampleDenied 2000), replaceClearance sampleDB (approvedRow sampleDenied 2000)) ∧
    officer_verify_membership sampleDB 1 "deny" (some "late") 2000 =
      (.ok (deniedRow sampleDenied (some "late")),
       replaceClearance sampleDB (deniedRow sampleDenied (some "late"))) ∧
    (approvedRow sampleDenied 2000).status = "Clear" ∧
    (approvedRow sampleDenied 2000).payment_status = "Paid" ∧
    (approvedRow sampleDenied 2000).approval_date = some 2000 ∧
    (approvedRow sampleDenied 2000).denial_reason = none ∧
    (deniedRow sampleDenied (some "late")).status = "Not Yet Cleared" ∧
    (deniedRow sampleDenied (some "late")).payment_status = "Not Paid" ∧
    (deniedRow sampleDenied (some "late")).receipt_path = none ∧
    (deniedRow sampleDenied (some "late")).payment_method = none ∧
    (deniedRow sampleDenied (some "late")).payment_date = none ∧
    (deniedRow sampleDenied (some "late")).denial_reason = some "late" :=
  officer_verify_membership_spec sampleDB 1 (some "late") 2000 sampleDenied rfl

/-- C6: for an existing event whose registration window is open and a
caller already in the participant list, join_event answers with the
already participating message and leaves the database, in particular the
participant list, completely unchanged. -/
theorem join_event_idempotent (db : DB) (eid uid : Nat) (now : Int) (ev : Event)
    (hfind : db.events.find? (fun e => e.id == eid) = some ev)
    (hstart : registrationNotStarted ev now = false)
    (hend : registrationEnded ev now = false)
    (hmem : ev.participants.contains uid = true) :
    join_event db eid uid now = (.ok "Already participating in this event", db) := by
  have hm : uid ∈ ev.participants := by simpa using hmem
  simp [join_event, hfind, hstart, hend, hm]

/-- Witness for C6: user 7 joins event 3 a second time at time 500. -/
theorem join_event_idempotent_witness :
    join_event sampleEventDB 3 7 500 = (.ok "Already participating in this event", sampleEventDB) :=
  join_event_idempotent sampleEventDB 3 7 500 sampleEvent rfl rfl rfl rfl

/-- C7: for an existing event, leaving after the registration end fails
with a 403 and changes nothing regardless of participation; with the
window still open, a non participant receives the graceful not
participating message and nothing changes, and a participant is removed,
exactly the first occurrence of the caller, from the participant list. -/
theorem leave_event_spec (db : DB) (eid uid : Nat) (now : Int) (ev : Event)
    (hfind : db.events.find? (fun e => e.id == eid) = some ev) :
    (registrationEnded ev now = true →
      leave_event db eid uid now =
        (.error ⟨403, "Registration for this event has ended, cannot leave now"⟩, db)) ∧
    (registrationEnded ev now = false → ev.participants.contains uid = false →
      leave_event db eid uid now = (.ok "You are not participating in this event", db)) ∧
    (registrationEnded ev now = false → ev.participants.contains uid = true →
      leave_event db eid uid now = (.ok "Successfully left the event",
        replaceEvent db { ev with participants := ev.participants.erase uid })) := by
  refine ⟨fun h => ?_, fun h1 h2 => ?_, fun h1 h2 => ?_⟩
  · simp [leave_event, hfind, h]
  · have hm : uid ∉ ev.participants := by simpa using h2
    simp [leave_event, hfind, h1, hm]
  · have hm : uid ∈ ev.participants := by simpa using h2
    simp [leave_event, hfind, h1, hm]

/-- Witness for C7: the closed event rejects leaving for a current
participant, and the open event handles both the non participant and the
participant cases. -/
theorem leave_event_spec_witness :
    leave_event sampleEventDB 4 7 100 =
      (.error ⟨403, "Registration for this event has ended, cannot leave now"⟩, sampleEventDB) ∧
    leave_event sampleEventDB 3 9 500 = (.ok "You are not participating in this event", sampleEventDB) ∧
    leave_event sampleEventDB 3 7 500 = (.ok "Successfully left the event",
      replaceEvent sampleEventDB { sampleEvent with participants := sampleEvent.participants.erase 7 }) :=
  ⟨(leave_event_spec sampleEventDB 4 7 100 closedEvent rfl).1 rfl,
   (leave_event_spec sampleEventDB 3 9 500 sampleEvent rfl).2.1 rfl rfl,
   (leave_event_spec sampleEventDB 3 7 500 sampleEvent rfl).2.2 rfl rfl⟩

/-- C10: update_receipt never reads the identity of the authenticated
caller: any two callers produce the identical response and the identical
database update, and in particular a caller distinct from the owner of
the clearance still moves it to the pair Processing and Verifying. -/
theorem update_receipt_caller_independent (db : DB) (p : UpdateReceiptPayload)
    (now : Int) (u1 u2 : Nat) (m : Clearance)
    (hty : pyStrip (pyLower p.payment_type) = "gcash" ∨
           pyStrip (pyLower p.payment_type) = "paymaya")
    (hfind : db.clearances.find? (fun c => c.id == p.membership_id && !c.archived) = some m) :
    update_receipt db p u1 now = update_receipt db p u2 now ∧
    (update_receipt db p u1 now).1 = .ok (receiptUpdatedRow m p now) ∧
    (receiptUpdatedRow m p now).status = "Processing" ∧
    (receiptUpdatedRow m p now).payment_status = "Verifying" := by
  refine ⟨rfl, ?_, rfl, rfl⟩
  have hc : (pyStrip (pyLower p.payment_type) == "gcash" ||
             pyStrip (pyLower p.payment_type) == "paymaya") = true := by
    rcases hty with h | h <;> simp [h]
  simp [update_receipt, hc, hfind, receiptUpdatedRow]

/-- Witness for C10: callers 42 and 99, neither of them user 7 who owns
the clearance, produce the same successful update. -/
theorem update_receipt_caller_independent_witness :
    update_receipt sampleDB ⟨1, "paymaya", "receipts/r2.png"⟩ 42 1000 =
      update_receipt sampleDB ⟨1, "paymaya", "receipts/r2.png"⟩ 99 1000 ∧
    (update_receipt sampleDB ⟨1, "paymaya", "receipts/r2.png"⟩ 42 1000).1 =
      .ok (receiptUpdatedRow sampleDenied ⟨1, "paymaya", "receipts/r2.png"⟩ 1000) ∧
    (receiptUpdatedRow sampleDenied ⟨1, "paymaya", "receipts/r2.png"⟩ 1000).status = "Processing" ∧
    (receiptUpdatedRow sampleDenied ⟨1, "paymaya", "receipts/r2.png"⟩ 1000).payment_status = "Verifying" :=
  update_receipt_caller_independent sampleDB ⟨1, "paymaya", "receipts/r2.png"⟩ 1000 42 99 sampleDenied
    (Or.inr rfl) rfl

/-- C4: at a request whose start date exceeds its end date, the first
dashboard implementation answers with the 400 validation error, while the
second implementation converts the very same validation failure into a
generic 500 server fault, because its blanket except clause also catches
the HTTPException carrying the 400. The claim that both implementations
yield a user facing validation failure and never a server fault is
contradicted by the second implementation at this input. -/
theorem dashboard_invalid_range_behavior :
    AppAnalytics.get_dashboard_data ⟨[], [], [], 0⟩ (some 100) (some 0) none 1000 =
      .error ⟨400, "Start date must be before end date"⟩ ∧
    RoutesAnalytics.get_dashboard_data ⟨[], [], [], 0⟩ (some 100) (some 0) 1000 =
      .error ⟨500, "Internal server error while aggregating dashboard data"⟩ :=
  ⟨rfl, rfl⟩

/-- C8: in every dashboard report produced by either implementation, each
event entry carries participation rate zero when the paid member total is
zero, zero when the event has no participants, and otherwise the rounded
percentage of its participant count over the paid member total. -/
theorem participation_rate_spec (db : DB) (sd ed : Option Int) (ia : Option Bool)
    (now : Int) (d : Dashboard)
    (h : AppAnalytics.get_dashboard_data db sd ed ia now = .ok d ∨
         RoutesAnalytics.get_dashboard_data db sd ed now = .ok d) :
    d.events = d.events.map (fun e =>
      { e with participation_rate :=
          if d.totalSpecsMembers = 0 then 0
          else if e.participant_count = 0 then 0
          else round2 ((e.participant_count : Rat) / (d.totalSpecsMembers : Rat) * 100) }) := by
  rcases h with h | h
  · simp only [AppAnalytics.get_dashboard_data] at h
    split at h
    · exact absurd h (by simp)
    · rw [Except.ok.injEq] at h
      subst h
      simp only [List.map_map]
      refine List.map_congr_left (fun e he => ?_)
      simp only [Function.comp]
      by_cases hT : (paidMemberIds db (sd.getD (now - 730 * day)) (ed.getD now)).length = 0
      · simp [hT]
      · by_cases hp : e.participants.length = 0
        · simp [hT, hp]
        · simp [hT, hp, Nat.pos_of_ne_zero hT]
  · simp only [RoutesAnalytics.get_dashboard_data] at h
    split at h
    · exact absurd h (by simp)
    · rename_i d0 hb
      rw [Except.ok.injEq] at h
      subst h
      simp only [RoutesAnalytics.dashboard_body] at hb
      split at hb
      · exact absurd hb (by simp)
      · rw [Except.ok.injEq] at hb
        subst hb
        simp only [List.map_map]
        refine List.map_congr_left (fun e he => ?_)
        simp only [Function.comp]
        by_cases hT : (paidMemberIds db (sd.getD (now - 365 * day)) (ed.getD now)).length = 0
        · simp [hT]
        · by_cases hp : e.participants.length = 0
          · simp [hT, hp, round2]
          · simp [hT, hp, Nat.pos_of_ne_zero hT]

/-- Witness for C8 at the concrete sample data. -/
theorem participation_rate_spec_witness :
    engagementDashboard.events = engagementDashboard.events.map (fun e =>
      { e with participation_rate :=
          if engagementDashboard.totalSpecsMembers = 0 then 0
          else if e.participant_count = 0 then 0
          else round2 ((e.participant_count : Rat) /
            (engagementDashboard.totalSpecsMembers : Rat) * 100) }) :=
  participation_rate_spec engagementSampleDB (some 0) (some 10) none 7 engagementDashboard
    (Or.inl rfl)

/-- C9: the claim states that in both dashboard implementations the
inactive member count equals the total number of registered users minus
the users active within the last thirty days. At this input the second
implementation reports zero inactive members while the claimed formula
gives one, so the claim as stated is false for that implementation. -/
theorem inactive_members_counterexample :
    RoutesAnalytics.get_dashboard_data inactiveSampleDB (some 0) (some 10) 100 =
      .ok { totalStudents := 2, totalSpecsMembers := 0, activeMembers := 0,
            inactiveMembers := 0, events := [] } ∧
    (inactiveSampleDB.users.length : Int) - (activeUserCount inactiveSampleDB 100 : Int) = 1 ∧
    (0 : Int) ≠ 1 :=
  ⟨rfl, by decide, by decide⟩

/-- C9 (amended): the first implementation computes inactive members as
the registered user total minus the users active within thirty days,
exactly as the claim states; the second implementation instead subtracts
its active paid member count from the paid member total. -/
theorem inactive_members_spec (db : DB) (sd ed : Option Int) (ia : Option Bool)
    (now : Int) (d : Dashboard) :
    (AppAnalytics.get_dashboard_data db sd ed ia now = .ok d →
      d.totalStudents = db.users.length ∧
      d.activeMembers = activeUserCount db now ∧
      d.inactiveMembers = (db.users.length : Int) - (activeUserCount db now : Int)) ∧
    (RoutesAnalytics.get_dashboard_data db sd ed now = .ok d →
      d.inactiveMembers = (d.totalSpecsMembers : Int) - (d.activeMembers : Int)) := by
  constructor
  · intro h
    simp only [AppAnalytics.get_dashboard_data] at h
    split at h
    · exact absurd h (by simp)
    · rw [Except.ok.injEq] at h
      subst h
      exact ⟨rfl, rfl, rfl⟩
  · intro h
    simp only [RoutesAnalytics.get_dashboard_data] at h
    split at h
    · exact absurd h (by simp)
    · rename_i d0 hb
      rw [Except.ok.injEq] at h
      subst h
      simp only [RoutesAnalytics.dashboard_body] at hb
      split at hb
      · exact absurd hb (by simp)
      · rw [Except.ok.injEq] at hb
        subst hb
        rfl

/-- Witness for C9 at the concrete sample data, covering both
implementations. -/
theorem inactive_members_spec_witness :
    ((⟨2, 0, 1, 1, []⟩ : Dashboard).totalStudents = inactiveSampleDB.users.length ∧
     (⟨2, 0, 1, 1, []⟩ : Dashboard).activeMembers = activeUserCount inactiveSampleDB 100 ∧
     (⟨2, 0, 1, 1, []⟩ : Dashboard).inactiveMembers =
       (inactiveSampleDB.users.length : Int) - (activeUserCount inactiveSampleDB 100 : Int)) ∧
    (⟨2, 0, 0, 0, []⟩ : Dashboard).inactiveMembers =
      ((⟨2, 0, 0, 0, []⟩ : Dashboard).totalSpecsMembers : Int) -
        ((⟨2, 0, 0, 0, []⟩ : Dashboard).activeMembers : Int) :=
  ⟨(inactive_members_spec inactiveSampleDB (some 0) (some 10) none 100 ⟨2, 0, 1, 1, []⟩).1 rfl,
   (inactive_members_spec inactiveSampleDB (some 0) (some 10) none 100 ⟨2, 0, 0, 0, []⟩).2 rfl⟩

/-- Rows whose user id differs from the probed user never change the
outcome of the existence check. -/
theorem lacksRequirement_append (base extra : List Clearance) (req : String) (uid : Nat)
    (h : ∀ c ∈ extra, c.user_id ≠ uid) :
    lacksRequirement (base ++ extra) req uid = lacksRequirement base req uid := by
  unfold lacksRequirement
  rw [List.find?_append]
  have hnone : extra.find? (fun c => c.user_id == uid && c.requirement == req && !c.archived)
      = none := by
    rw [List.find?_eq_none]
    intro c hc
    simp [h c hc]
  rw [hnone]
  cases base.find? (fun c => c.user_id == uid && c.requirement == req && !c.archived) <;> rfl

/-- Unrolling of the bulk creation loop: when already present rows never
collide with the ids of the remaining distinct users, the loop appends
exactly the fresh rows computed against the base table. -/
theorem create_officer_requirement_loop_spec (req : String) (amt : Rat) (now : Int) :
    ∀ (users usersAll : List User) (base extra : List Clearance) (events : List Event)
      (nid : Nat) (created : List Clearance),
      (users.map User.id).Nodup →
      (∀ c ∈ extra, ∀ u ∈ users, c.user_id ≠ u.id) →
      create_officer_requirement_loop req amt now users ⟨usersAll, base ++ extra, events, nid⟩
        created =
        (⟨usersAll, (base ++ extra) ++ freshClearances base req amt now users nid, events,
          nid + (freshClearances base req amt now users nid).length⟩,
         created ++ freshClearances base req amt now users nid) := by
  intro users
  induction users with
  | nil =>
    intro usersAll base extra events nid created hnd hextra
    simp [create_officer_requirement_loop, freshClearances]
  | cons u rest ih =>
    intro usersAll base extra events nid created hnd hextra
    have hlacks : lacksRequirement (base ++ extra) req u.id = lacksRequirement base req u.id :=
      lacksRequirement_append base extra req u.id
        (fun c hc => hextra c hc u (List.mem_cons_self u rest))
    rw [List.map_cons, List.nodup_cons] at hnd
    simp only [create_officer_requirement_loop, freshClearances, hlacks]
    by_cases hl : lacksRequirement base req u.id = true
    · simp only [if_pos hl]
      have hextra2 : ∀ c ∈ extra ++ [newRequirementClearance nid u.id req amt now],
          ∀ v ∈ rest, c.user_id ≠ v.id := by
        intro c hc v hv
        rcases List.mem_append.mp hc with hc | hc
        · exact hextra c hc v (List.mem_cons_of_mem u hv)
        · rcases List.mem_singleton.mp hc with rfl
          intro hcontra
          simp only [newRequirementClearance] at hcontra
          refine hnd.1 ?_
          rw [hcontra]
          exact List.mem_map_of_mem User.id hv
      have hih := ih usersAll base (extra ++ [newRequirementClearance nid u.id req amt now])
        events (nid + 1) (created ++ [newRequirementClearance nid u.id req amt now])
        hnd.2 hextra2
      rw [show (base ++ extra) ++ [newRequirementClearance nid u.id req amt now] =
            base ++ (extra ++ [newRequirementClearance nid u.id req amt now]) from
          List.append_assoc base extra [newRequirementClearance nid u.id req amt now]]
      rw [hih, Prod.mk.injEq, DB.mk.injEq]
      refine ⟨⟨rfl, by simp, rfl, ?_⟩, by simp⟩
      simp only [List.length_cons]
      omega
    · simp only [if_neg hl]
      exact ih usersAll base extra events nid created hnd.2
        (fun c hc v hv => hextra c hc v (List.mem_cons_of_mem u hv))

/-- The user ids of the fresh rows are exactly the ids of the users
lacking the requirement, in order. -/
theorem freshClearances_map_user_id (base : List Clearance) (req : String) (amt : Rat)
    (now : Int) :
    ∀ (users : List User) (nid : Nat),
      (freshClearances base req amt now users nid).map Clearance.user_id =
        (users.filter (fun u => lacksRequirement base req u.id)).map User.id := by
  intro users
  induction users with
  | nil => intro nid; rfl
  | cons u rest ih =>
    intro nid
    simp only [freshClearances, List.filter_cons]
    by_cases hl : lacksRequirement base req u.id = true <;>
      simp [hl, ih, newRequirementClearance]

/-- Every fresh row is initialized to the pair Not Yet Cleared and Not
Paid for the requested requirement, and belongs to a user lacking it. -/
theorem freshClearances_all_init (base : List Clearance) (req : String) (amt : Rat)
    (now : Int) :
    ∀ (users : List User) (nid : Nat),
      (freshClearances base req amt now users nid).all (fun c =>
        c.requirement == req && c.payment_status == "Not Paid" &&
        c.status == "Not Yet Cleared" && lacksRequirement base req c.user_id) = true := by
  intro users
  induction users with
  | nil => intro nid; rfl
  | cons u rest ih =>
    intro nid
    simp only [freshClearances]
    by_cases hl : lacksRequirement base req u.id = true <;>
      simp [hl, ih, newRequirementClearance]

/-- C5: with pairwise distinct user ids, the bulk requirement creation
appends exactly one fresh row per user lacking a non archived clearance
for the requirement and none for the others, every fresh row starts at the
pair Not Yet Cleared and Not Paid, and when no user lacks the requirement
the operation fails with the 400 duplicate error and leaves the database
unchanged; otherwise it answers with the first created row. -/
theorem create_officer_requirement_spec (db : DB) (req : String) (amt : Rat) (now : Int)
    (hnd : (db.users.map User.id).Nodup) :
    (create_officer_requirement db req amt now).2.clearances =
      db.clearances ++ bulkFresh db req amt now ∧
    (bulkFresh db req amt now).map Clearance.user_id =
      (db.users.filter (fun u => lacksRequirement db.clearances req u.id)).map User.id ∧
    (bulkFresh db req amt now).all (fun c => c.requirement == req &&
      c.payment_status == "Not Paid" && c.status == "Not Yet Cleared" &&
      lacksRequirement db.clearances req c.user_id) = true ∧
    (bulkFresh db req amt now = [] →
      create_officer_requirement db req amt now =
        (.error ⟨400, "Requirement already exists for all users"⟩, db)) ∧
    (create_officer_requirement db req amt now).1 =
      (match bulkFresh db req amt now with
       | [] => .error ⟨400, "Requirement already exists for all users"⟩
       | c :: _ => .ok c) := by
  obtain ⟨us, cls, evs, nid⟩ := db
  have hloop := create_officer_requirement_loop_spec req amt now us us cls [] evs nid []
    hnd (by simp)
  simp only [List.append_nil] at hloop
  refine ⟨?_, freshClearances_map_user_id cls req amt now us nid,
          freshClearances_all_init cls req amt now us nid, ?_, ?_⟩ <;>
    cases hF : freshClearances cls req amt now us nid <;>
      simp [create_officer_requirement, hloop, hF, bulkFresh]

/-- Witness for C5: bulk creating Lab Fee over ten users of whom three
already have a row creates exactly seven rows, and over a population where
every user already has one it fails with the 400 error and changes
nothing. -/
theorem create_officer_requirement_spec_witness :
    ((create_officer_requirement labFeeDB "Lab Fee" 500 0).2.clearances =
      labFeeDB.clearances ++ bulkFresh labFeeDB "Lab Fee" 500 0 ∧
    (bulkFresh labFeeDB "Lab Fee" 500 0).map Clearance.user_id =
      (labFeeDB.users.filter
        (fun u => lacksRequirement labFeeDB.clearances "Lab Fee" u.id)).map User.id ∧
    (bulkFresh labFeeDB "Lab Fee" 500 0).all (fun c => c.requirement == "Lab Fee" &&
      c.payment_status == "Not Paid" && c.status == "Not Yet Cleared" &&
      lacksRequirement labFeeDB.clearances "Lab Fee" c.user_id) = true ∧
    (bulkFresh labFeeDB "Lab Fee" 500 0 = [] →
      create_officer_requirement labFeeDB "Lab Fee" 500 0 =
        (.error ⟨400, "Requirement already exists for all users"⟩, labFeeDB)) ∧
    (create_officer_requirement labFeeDB "Lab Fee" 500 0).1 =
      (match bulkFresh labFeeDB "Lab Fee" 500 0 with
       | [] => .error ⟨400, "Requirement already exists for all users"⟩
       | c :: _ => .ok c)) ∧
    (bulkFresh labFeeDB "Lab Fee" 500 0).length = 7 ∧
    bulkFresh labFeeFullDB "Lab Fee" 500 0 = [] ∧
    create_officer_requirement labFeeFullDB "Lab Fee" 500 0 =
      (.error ⟨400, "Requirement already exists for all users"⟩, labFeeFullDB) :=
  ⟨create_officer_requirement_spec labFeeDB "Lab Fee" 500 0 (by decide),
   by decide,
   rfl,
   (create_officer_requirement_spec labFeeFullDB "Lab Fee" 500 0 (by decide)).2.2.2.1 rfl⟩

/-- C1: the claim states that every reachable clearance carries one of the
three legal pairs, in particular across officer_create_membership with its
caller supplied payment status. This reachable state holds a row with the
pair Not Yet Cleared and Paid, a fourth combination, so the claim as
stated is false. -/
theorem clearance_state_pairs_counterexample :
    Reachable badStateDB ∧ badStateDB.clearances.all goodPairB = false :=
  ⟨Reachable.create ⟨[], [], [], 0⟩ 7 500 "Paid" "1st Semester Membership" 0
    (Reachable.init [] [] 0), by decide⟩

/-- Replacing one row by a row with a legal pair keeps every row legal. -/
theorem replaceClearance_all_good (db : DB) (m : Clearance) (hm : goodPairB m = true)
    (h : db.clearances.all goodPairB = true) :
    (replaceClearance db m).clearances.all goodPairB = true := by
  rw [List.all_eq_true] at h ⊢
  intro c hc
  simp only [replaceClearance] at hc
  rcases List.mem_map.mp hc with ⟨a, ha, rfl⟩
  split
  · exact hm
  · exact h a ha

/-- The single row creation with payment status Not Paid keeps every row
legal. -/
theorem officer_create_not_paid_good (db : DB) (uid : Nat) (amt : Rat) (req : String)
    (now : Int) (h : db.clearances.all goodPairB = true) :
    ((officer_create_membership db uid amt "Not Paid" req now).2).clearances.all
      goodPairB = true := by
  simp [officer_create_membership, List.all_append, h, goodPairB]

/-- The receipt submission keeps every row legal on all of its paths. -/
theorem update_receipt_preserves_good (db : DB) (p : UpdateReceiptPayload) (caller : Nat)
    (now : Int) (h : db.clearances.all goodPairB = true) :
    ((update_receipt db p caller now).2).clearances.all goodPairB = true := by
  simp only [update_receipt]
  split
  · exact h
  · cases hfind : db.clearances.find? (fun c => c.id == p.membership_id && !c.archived) with
    | none => exact h
    | some m => exact replaceClearance_all_good db _ (by simp [goodPairB]) h

/-- The officer verification keeps every row legal on all of its paths. -/
theorem officer_verify_preserves_good (db : DB) (mid : Nat) (action : String)
    (dr : Option String) (now : Int) (h : db.clearances.all goodPairB = true) :
    ((officer_verify_membership db mid action dr now).2).clearances.all goodPairB = true := by
  simp only [officer_verify_membership]
  split
  · exact h
  · cases hfind : db.clearances.find? (fun c => c.id == mid && !c.archived) with
    | none => exact h
    | some m =>
      cases ha : action == "approve"
      · exact replaceClearance_all_good db _ (by simp [goodPairB]) h
      · exact replaceClearance_all_good db _ (by simp [goodPairB]) h

/-- The bulk creation loop keeps every row legal. -/
theorem create_officer_requirement_loop_good (req : String) (amt : Rat) (now : Int) :
    ∀ (users : List User) (db : DB) (created : List Clearance),
      db.clearances.all goodPairB = true →
      ((create_officer_requirement_loop req amt now users db created).1).clearances.all
        goodPairB = true := by
  intro users
  induction users with
  | nil => intro db created h; exact h
  | cons u rest ih =>
    intro db created h
    simp only [create_officer_requirement_loop]
    split
    · apply ih
      simp [List.all_append, h, goodPairB, newRequirementClearance]
    · exact ih db created h

/-- The bulk creation keeps every row legal. -/
theorem create_officer_requirement_preserves_good (db : DB) (req : String) (amt : Rat)
    (now : Int) (h : db.clearances.all goodPairB = true) :
    ((create_officer_requirement db req amt now).2).clearances.all goodPairB = true := by
  have h2 : (create_officer_requirement db req amt now).2 =
      (create_officer_requirement_loop req amt now db.users db []).1 := by
    simp only [create_officer_requirement]
    cases (create_officer_requirement_loop req amt now db.users db []).2 <;> rfl
  rw [h2]
  exact create_officer_requirement_loop_good req amt now db.users db [] h

/-- C1 (amended): every clearance in a state reachable through the five
public operations carries one of the three legal status pairs, provided
the single row creation is always invoked with payment status Not Paid;
the caller chosen payment status of officer_create_membership is the one
operation able to break the pairing. -/
theorem clearance_state_pairs_reachable (db : DB) (h : ReachableGood db) :
    db.clearances.all goodPairB = true := by
  induction h with
  | init users events nid => rfl
  | create db uid amt req now hr ih => exact officer_create_not_paid_good db uid amt req now ih
  | bulk db req amt now hr ih => exact create_officer_requirement_preserves_good db req amt now ih
  | receipt db p caller now hr ih => exact update_receipt_preserves_good db p caller now ih
  | verify db mid action dr now hr ih => exact officer_verify_preserves_good db mid action dr now ih

/-- Witness for C1 along a concrete trace of two operations. -/
theorem clearance_state_pairs_reachable_witness :
    goodTraceDB.clearances.all goodPairB = true :=
  clearance_state_pairs_reachable goodTraceDB
    (ReachableGood.receipt _ ⟨1, "gcash", "receipts/w.png"⟩ 7 10
      (ReachableGood.create ⟨[{ id := 7 }], [], [], 1⟩ 7 500 "1st Semester Membership" 0
        (ReachableGood.init [{ id := 7 }] [] 1)))
